import Mathlib

/-!
Shallow embedding of the Click Timer browser extension's core logic
(`content.js`, class `ClickTimer`), used to verify its natural-language
specification.

Modelling conventions:
* Wall-clock times (`Date.now()`) are integers (milliseconds since epoch).
* The DOM facts a click event carries (containment in `document.body`,
  pointer coordinates, viewport size, `closest('html')`,
  `closest('.click-timer-indicator')`) are recorded as fields of `ClickEvent`.
* The on-page indicator elements attached to `document.body` are modelled as
  the list `indicators` of their rendered text; `visualIndicator` is the
  tracked element (`this.visualIndicator`), `indicatorTimeout` the pending
  auto-hide delay in milliseconds (`this.indicatorTimeout`).
* The numeric `timeDiff` passed to `logTimingData` / `updateVisualFeedback`
  is a rational (exact, since JavaScript doubles represent these values
  exactly at realistic magnitudes); `timeDiff.toFixed(3)` applied to
  `timeDiff = diffMs / 1000` is `toFixed3ms diffMs`, exact on
  integer-millisecond quotients.
* The asynchronous `chrome.storage.local` calls are modelled by an explicit
  outcome parameter (`StorageOutcome` for writes, `LoadResult` for the
  startup read); the two adjacent `Date.now()` calls inside
  `loadPersistedData` are modelled by its single `now` parameter.
* JavaScript truthiness in `loadPersistedData` (`data.lastClickTime && ...`,
  `data.clickCount || 0`, `data.timestamp || 0`,
  `data.isEnabled !== undefined ? data.isEnabled : true`) is embedded
  faithfully: a present-but-zero number is falsy.
-/

namespace ClickTimer

/-- The record stored under the key `clickTimerData` in `chrome.storage.local`.
Every field is optional: an arbitrary record may be missing fields (the code
defends against that with `||` defaults and an `!== undefined` check). -/
structure PersistRecord where
  lastClickTime : Option Int
  clickCount : Option Nat
  isEnabled : Option Bool
  timestamp : Option Int
deriving Repr, DecidableEq

/-- The in-memory state of a `ClickTimer` instance: the session-state fields
(`lastClickTime`, `clickCount`, `isEnabled`) plus the visual-indicator state
(`indicators` = the `.click-timer-indicator` elements currently attached to
`document.body`, by rendered text; `visualIndicator` = `this.visualIndicator`;
`indicatorTimeout` = the pending auto-hide timer's delay, if armed). -/
structure TimerState where
  lastClickTime : Option Int
  clickCount : Nat
  isEnabled : Bool
  indicators : List String
  visualIndicator : Option String
  indicatorTimeout : Option Nat
deriving Repr, DecidableEq

/-- Constructor state of `ClickTimer`: `lastClickTime = null`, `clickCount = 0`,
`isEnabled = true`, no indicator, no timer. -/
def initialState : TimerState :=
  { lastClickTime := none
    clickCount := 0
    isEnabled := true
    indicators := []
    visualIndicator := none
    indicatorTimeout := none }

/-- A click event as `handleClick` observes it: its timestamp
(`getHighPrecisionTime()`, i.e. `Date.now()`), whether
`document.body.contains(target)`, the pointer coordinates, the viewport
size, whether `target.closest('html')` is non-null, and whether
`target.closest('.click-timer-indicator')` is non-null. -/
structure ClickEvent where
  time : Int
  inBody : Bool
  clientX : Int
  clientY : Int
  innerWidth : Int
  innerHeight : Int
  inHtml : Bool
  onIndicator : Bool
deriving Repr, DecidableEq

/-- `ClickTimer.isValidPageClick`: rejects targets outside `document.body`,
approximate scrollbar clicks (within 20 px of the right or bottom viewport
edge), browser-UI targets (`closest('html') === null`), and clicks on the
extension's own indicator. -/
def isValidPageClick (e : ClickEvent) : Bool :=
  if !e.inBody then false
  else
    let isScrollbarClick : Bool :=
      decide (e.clientX > e.innerWidth - 20) || decide (e.clientY > e.innerHeight - 20)
    let isBrowserUI : Bool := !e.inHtml
    if e.onIndicator then false
    else !isScrollbarClick && !isBrowserUI

/-- Left-pads the fractional (millisecond) part to three digits, as the
decimal expansion produced by `toFixed(3)` does. -/
def pad3 (n : Nat) : String :=
  if n < 10 then "00" ++ toString n
  else if n < 100 then "0" ++ toString n
  else toString n

/-- `(d / 1000).toFixed(3)` for an integer number `d` of milliseconds, on
which `toFixed(3)` is exact: the integer seconds, a dot, and the
three-digit millisecond remainder, with a leading sign when negative. -/
def toFixed3ms (d : Int) : String :=
  let a : Nat := d.natAbs
  (if d < 0 then "-" else "") ++ toString (a / 1000) ++ "." ++ pad3 (a % 1000)

/-- A display event: the numeric `timeDiff` handed to `logTimingData` /
`updateVisualFeedback` (absent on a first click), the message string, and
the sequence number (`clickCount`) shown with it. -/
structure Emit where
  interval : Option ℚ
  message : String
  sequenceNumber : Nat
deriving Repr, DecidableEq

/-- The rendered text of the indicator element
(`createVisualIndicator` sets `textContent` to `#<clickCount>: <message>`). -/
def indicatorText (message : String) (clickCount : Nat) : String :=
  "#" ++ toString clickCount ++ ": " ++ message

/-- `ClickTimer.createVisualIndicator`: builds a new indicator element,
appends it to `document.body` and tracks it in `this.visualIndicator`. -/
def createVisualIndicator (s : TimerState) (message : String) (clickCount : Nat) : TimerState :=
  let text := indicatorText message clickCount
  { s with indicators := s.indicators ++ [text], visualIndicator := some text }

/-- `ClickTimer.removeVisualIndicator`: clears the pending timeout, and if the
tracked indicator exists and is attached (`parentNode` non-null, i.e. it is in
the body's list), detaches it and nulls the tracking field. -/
def removeVisualIndicator (s : TimerState) : TimerState :=
  let s1 := { s with indicatorTimeout := none }
  match s1.visualIndicator with
  | some ind =>
      if ind ∈ s1.indicators then
        { s1 with indicators := s1.indicators.erase ind, visualIndicator := none }
      else s1
  | none => s1

/-- `ClickTimer.showVisualFeedback`: immediately removes any existing
indicator and timer, creates the new indicator, and arms a fresh 2000 ms
auto-hide timer. -/
def showVisualFeedback (s : TimerState) (message : String) (clickCount : Nat) : TimerState :=
  let s1 := removeVisualIndicator s
  let s2 := createVisualIndicator s1 message clickCount
  { s2 with indicatorTimeout := some 2000 }

/-- `ClickTimer.handleClick` (in-memory effect): rejects the event when the
timer is disabled or `isValidPageClick` fails; otherwise computes the
interval from `lastClickTime` (or takes the first-click branch), updates the
count and the visual feedback, and records the new timestamp. Returns the
new state and the display event, if any. The trailing `savePersistedData`
call is modelled separately by `sysHandleClick`. -/
def handleClick (s : TimerState) (e : ClickEvent) : TimerState × Option Emit :=
  if !s.isEnabled then (s, none)
  else if !isValidPageClick e then (s, none)
  else
    let currentTime := e.time
    match s.lastClickTime with
    | some last =>
        let diffMs : Int := currentTime - last
        let timeDiff : ℚ := (diffMs : ℚ) / 1000
        let newCount := s.clickCount + 1
        let message := toFixed3ms diffMs ++ "s"
        let s1 := { s with clickCount := newCount }
        let s2 := showVisualFeedback s1 message newCount
        ({ s2 with lastClickTime := some currentTime },
         some { interval := some timeDiff, message := message, sequenceNumber := newCount })
    | none =>
        let s1 := { s with clickCount := 1 }
        let s2 := showVisualFeedback s1 "First click recorded" 1
        ({ s2 with lastClickTime := some currentTime },
         some { interval := none, message := "First click recorded", sequenceNumber := 1 })

/-- `ClickTimer.resetTimer` (in-memory effect): clears `lastClickTime` and
`clickCount`, removes the visual indicator. -/
def resetTimer (s : TimerState) : TimerState :=
  removeVisualIndicator { s with lastClickTime := none, clickCount := 0 }

/-- `ClickTimer.enable` (in-memory effect): sets `isEnabled`. -/
def enable (s : TimerState) : TimerState :=
  { s with isEnabled := true }

/-- `ClickTimer.disable` (in-memory effect): clears `isEnabled` and removes
the visual indicator. -/
def disable (s : TimerState) : TimerState :=
  removeVisualIndicator { s with isEnabled := false }

/-- The stats record returned by `ClickTimer.getStats`. -/
structure Stats where
  clickCount : Nat
  lastClickTime : Option Int
  isEnabled : Bool
deriving Repr, DecidableEq

/-- `ClickTimer.getStats`: a pure read of the session-state triple. -/
def getStats (s : TimerState) : Stats :=
  { clickCount := s.clickCount
    lastClickTime := s.lastClickTime
    isEnabled := s.isEnabled }

/-- Outcome of an asynchronous `chrome.storage.local.set` attempt: the write
succeeds, the storage API is unavailable, or the write throws. -/
inductive StorageOutcome where
  | ok
  | unavailable
  | error
deriving Repr, DecidableEq

/-- Outcome of the startup `chrome.storage.local.get`: the API is
unavailable, the read throws, or it returns the stored record (possibly
none). -/
inductive LoadResult where
  | unavailable
  | error
  | ok (record : Option PersistRecord)
deriving Repr, DecidableEq

/-- JavaScript truthiness of the persisted `lastClickTime` field
(`null` and `0` are falsy). -/
def jsTruthyTime : Option Int → Bool
  | none => false
  | some t => t != 0

/-- `ClickTimer.loadPersistedData`: on an unavailable API, a thrown read, or
no stored record, the in-memory state is left untouched. On a record,
`lastClickTime` is adopted only when it is truthy, the save is recent
(`now - (data.timestamp || 0) < 5000`) and the click age is sane
(`0 < now - data.lastClickTime < 300000`); otherwise it is reset to `null`.
`clickCount` becomes `data.clickCount || 0` and `isEnabled` becomes
`data.isEnabled !== undefined ? data.isEnabled : true`. -/
def loadPersistedData (s : TimerState) (now : Int) (r : LoadResult) : TimerState :=
  match r with
  | .unavailable => s
  | .error => s
  | .ok none => s
  | .ok (some data) =>
      let timeSinceLastSave : Int := now - data.timestamp.getD 0
      let newLast : Option Int :=
        if jsTruthyTime data.lastClickTime && decide (timeSinceLastSave < 5000) then
          let timeDiffFromLoad : Int := now - data.lastClickTime.getD 0
          if 0 < timeDiffFromLoad && timeDiffFromLoad < 300000 then
            data.lastClickTime
          else none
        else none
      { s with lastClickTime := newLast
               clickCount := data.clickCount.getD 0
               isEnabled := data.isEnabled.getD true }

/-- `ClickTimer.savePersistedData`: on success, the store holds a snapshot of
the session state stamped with the current time; when the API is unavailable
or the write throws, the store keeps its previous contents and the error is
only logged. -/
def savePersistedData (s : TimerState) (now : Int) (store : Option PersistRecord)
    (o : StorageOutcome) : Option PersistRecord :=
  match o with
  | .ok => some { lastClickTime := s.lastClickTime
                  clickCount := some s.clickCount
                  isEnabled := some s.isEnabled
                  timestamp := some now }
  | .unavailable => store
  | .error => store

/-- A page context: the tracker's in-memory state together with the contents
of `chrome.storage.local` under the tracker's key. -/
structure Sys where
  timer : TimerState
  store : Option PersistRecord
deriving Repr, DecidableEq

/-- `handleClick` including its trailing fire-and-forget
`savePersistedData().catch(...)` call (only reached when the click is
accepted; `saveNow` is the `Date.now()` inside the save). -/
def sysHandleClick (sys : Sys) (e : ClickEvent) (saveNow : Int) (o : StorageOutcome) :
    Sys × Option Emit :=
  let r := handleClick sys.timer e
  match r.2 with
  | none => ({ sys with timer := r.1 }, none)
  | some em => ({ timer := r.1, store := savePersistedData r.1 saveNow sys.store o }, some em)

/-- `resetTimer` including its fire-and-forget persistence call. -/
def sysResetTimer (sys : Sys) (saveNow : Int) (o : StorageOutcome) : Sys :=
  let s := resetTimer sys.timer
  { timer := s, store := savePersistedData s saveNow sys.store o }

/-- `enable` including its fire-and-forget persistence call. -/
def sysEnable (sys : Sys) (saveNow : Int) (o : StorageOutcome) : Sys :=
  let s := enable sys.timer
  { timer := s, store := savePersistedData s saveNow sys.store o }

/-- `disable` including its fire-and-forget persistence call. -/
def sysDisable (sys : Sys) (saveNow : Int) (o : StorageOutcome) : Sys :=
  let s := disable sys.timer
  { timer := s, store := savePersistedData s saveNow sys.store o }

/-- Folding a sequence of click events through `handleClick`. -/
def applyClicks (s : TimerState) (l : List ClickEvent) : TimerState :=
  l.foldl (fun s e => (handleClick s e).1) s

/-- The session-state invariant: a zero click count means no recorded click
time. -/
def Inv (s : TimerState) : Prop :=
  s.clickCount = 0 → s.lastClickTime = none

/-- The invariant read on a persisted record (with the code's defaults
applied to absent fields). -/
def recordInv (r : PersistRecord) : Prop :=
  r.clickCount.getD 0 = 0 → r.lastClickTime = none

/-- Consistency of the display state: the indicators attached to the body
are exactly the tracked one (so there is at most one). -/
def DInv (s : TimerState) : Prop :=
  s.indicators = s.visualIndicator.toList

/-- A click event with an in-body, in-viewport, off-indicator target, used
to instantiate theorems at concrete inputs. -/
def okEvent (t : Int) : ClickEvent :=
  { time := t
    inBody := true
    clientX := 100
    clientY := 100
    innerWidth := 800
    innerHeight := 600
    inHtml := true
    onIndicator := false }

/-- A concrete state for instantiating theorems: one recorded click at
time 1000. -/
def oneClickState : TimerState :=
  { initialState with lastClickTime := some 1000, clickCount := 1 }

/-- A concrete state for instantiating theorems: an indicator on screen
with its auto-hide timer pending. -/
def shownState : TimerState :=
  { initialState with
      lastClickTime := some 50
      clickCount := 3
      indicators := [indicatorText "First click recorded" 1]
      visualIndicator := some (indicatorText "First click recorded" 1)
      indicatorTimeout := some 2000 }

/-- `removeVisualIndicator` does not touch `lastClickTime`. -/
theorem remove_lastClickTime (s : TimerState) :
    (removeVisualIndicator s).lastClickTime = s.lastClickTime := by
  unfold removeVisualIndicator
  cases s.visualIndicator with
  | none => rfl
  | some ind =>
      dsimp only
      split <;> rfl

/-- `removeVisualIndicator` does not touch `clickCount`. -/
theorem remove_clickCount (s : TimerState) :
    (removeVisualIndicator s).clickCount = s.clickCount := by
  unfold removeVisualIndicator
  cases s.visualIndicator with
  | none => rfl
  | some ind =>
      dsimp only
      split <;> rfl

/-- `removeVisualIndicator` does not touch `isEnabled`. -/
theorem remove_isEnabled (s : TimerState) :
    (removeVisualIndicator s).isEnabled = s.isEnabled := by
  unfold removeVisualIndicator
  cases s.visualIndicator with
  | none => rfl
  | some ind =>
      dsimp only
      split <;> rfl

/-- `removeVisualIndicator` always disarms the auto-hide timer. -/
theorem remove_indicatorTimeout (s : TimerState) :
    (removeVisualIndicator s).indicatorTimeout = none := by
  unfold removeVisualIndicator
  cases s.visualIndicator with
  | none => rfl
  | some ind =>
      dsimp only
      split <;> rfl

/-- `showVisualFeedback` does not touch `lastClickTime`. -/
theorem show_lastClickTime (s : TimerState) (m : String) (c : Nat) :
    (showVisualFeedback s m c).lastClickTime = s.lastClickTime := by
  simp [showVisualFeedback, createVisualIndicator, remove_lastClickTime]

/-- `showVisualFeedback` does not touch `clickCount`. -/
theorem show_clickCount (s : TimerState) (m : String) (c : Nat) :
    (showVisualFeedback s m c).clickCount = s.clickCount := by
  simp [showVisualFeedback, createVisualIndicator, remove_clickCount]

/-- `showVisualFeedback` does not touch `isEnabled`. -/
theorem show_isEnabled (s : TimerState) (m : String) (c : Nat) :
    (showVisualFeedback s m c).isEnabled = s.isEnabled := by
  simp [showVisualFeedback, createVisualIndicator, remove_isEnabled]

/-- `showVisualFeedback` arms a fresh 2000 ms auto-hide timer. -/
theorem show_indicatorTimeout (s : TimerState) (m : String) (c : Nat) :
    (showVisualFeedback s m c).indicatorTimeout = some 2000 := by
  simp [showVisualFeedback, createVisualIndicator]

/-- A click rejected by the enabled flag or the validity filter leaves the
whole state untouched and emits nothing. -/
theorem handleClick_rejected (s : TimerState) (e : ClickEvent)
    (h : s.isEnabled = false ∨ isValidPageClick e = false) :
    handleClick s e = (s, none) := by
  rcases h with h | h
  · simp [handleClick, h]
  · cases hen : s.isEnabled <;> simp [handleClick, h, hen]

/-- An accepted click on a state with a recorded previous click increments
the count, records the event time, preserves the enabled flag, and emits
the interval event. -/
theorem handleClick_accept_some (s : TimerState) (e : ClickEvent) (t : Int)
    (h1 : s.lastClickTime = some t) (h2 : s.isEnabled = true)
    (h3 : isValidPageClick e = true) :
    (handleClick s e).1.clickCount = s.clickCount + 1 ∧
    (handleClick s e).1.lastClickTime = some e.time ∧
    (handleClick s e).1.isEnabled = true ∧
    (handleClick s e).2 =
      some { interval := some (((e.time - t : Int) : ℚ) / 1000)
             message := toFixed3ms (e.time - t) ++ "s"
             sequenceNumber := s.clickCount + 1 } := by
  simp [handleClick, h1, h2, h3, show_lastClickTime, show_clickCount, show_isEnabled]

/-- An accepted click on a state with no recorded previous click takes the
first-click branch: count becomes 1, the event time is recorded, the
enabled flag is preserved, and the first-click event is emitted. -/
theorem handleClick_accept_none (s : TimerState) (e : ClickEvent)
    (h1 : s.lastClickTime = none) (h2 : s.isEnabled = true)
    (h3 : isValidPageClick e = true) :
    (handleClick s e).1.clickCount = 1 ∧
    (handleClick s e).1.lastClickTime = some e.time ∧
    (handleClick s e).1.isEnabled = true ∧
    (handleClick s e).2 =
      some { interval := none, message := "First click recorded", sequenceNumber := 1 } := by
  simp [handleClick, h1, h2, h3, show_lastClickTime, show_clickCount, show_isEnabled]

/-- An accepted click always emits a display event. -/
theorem handleClick_accept_emits (s : TimerState) (e : ClickEvent)
    (h2 : s.isEnabled = true) (h3 : isValidPageClick e = true) :
    (handleClick s e).2 ≠ none := by
  cases h1 : s.lastClickTime with
  | some t => simp [(handleClick_accept_some s e t h1 h2 h3).2.2.2]
  | none => simp [(handleClick_accept_none s e h1 h2 h3).2.2.2]

/-- `isValidPageClick` unfolded to its propositional content. -/
theorem isValidPageClick_iff (e : ClickEvent) :
    isValidPageClick e = true ↔
      (e.inBody = true ∧ e.onIndicator = false ∧
       ¬(e.clientX > e.innerWidth - 20) ∧ ¬(e.clientY > e.innerHeight - 20) ∧
       e.inHtml = true) := by
  unfold isValidPageClick
  cases e.inBody <;> cases e.onIndicator <;> cases e.inHtml <;> simp

/-- C3: for two consecutive accepted clicks, where the first recorded
`lastClickTime = t1` and the second is handled at time `t2 > t1`, the
interval computed and reported by the second click is `(t2 - t1) / 1000`
seconds, and `clickCount` is incremented by exactly one. -/
theorem second_click_interval (s : TimerState) (e : ClickEvent) (t1 : Int)
    (h1 : s.lastClickTime = some t1) (h2 : s.isEnabled = true)
    (h3 : isValidPageClick e = true) (h4 : t1 < e.time) :
    Option.bind (handleClick s e).2 Emit.interval =
      some (((e.time - t1 : Int) : ℚ) / 1000) ∧
    (handleClick s e).1.clickCount = s.clickCount + 1 := by
  obtain ⟨hc, _, _, hemit⟩ := handleClick_accept_some s e t1 h1 h2 h3
  rw [hemit]
  exact ⟨rfl, hc⟩

/-- Witness for `second_click_interval`: first click recorded at 1000, second
accepted click at 1127. -/
theorem second_click_interval_witness :
    Option.bind (handleClick oneClickState (okEvent 1127)).2 Emit.interval =
      some ((((okEvent 1127).time - 1000 : Int) : ℚ) / 1000) ∧
    (handleClick oneClickState (okEvent 1127)).1.clickCount = oneClickState.clickCount + 1 :=
  second_click_interval oneClickState (okEvent 1127) 1000 rfl rfl (by decide) (by decide)

/-- C6: from fresh state, two accepted clicks 127 ms apart (at times 1000 and
1127) produce: a first display event with sequence number 1, the first-click
label and no interval, leaving `clickCount = 1`; then a display event with
sequence number 2 and interval message `0.127s`, rendered on the indicator
as `#2: 0.127s`, leaving `clickCount = 2`, with the 2000 ms auto-hide timer
armed. -/
theorem two_clicks_scenario :
    (handleClick initialState (okEvent 1000)).2 =
      some { interval := none, message := "First click recorded", sequenceNumber := 1 } ∧
    (handleClick initialState (okEvent 1000)).1.clickCount = 1 ∧
    Option.map Emit.message
        (handleClick (handleClick initialState (okEvent 1000)).1 (okEvent 1127)).2 =
      some "0.127s" ∧
    Option.map Emit.sequenceNumber
        (handleClick (handleClick initialState (okEvent 1000)).1 (okEvent 1127)).2 =
      some 2 ∧
    (handleClick (handleClick initialState (okEvent 1000)).1 (okEvent 1127)).1.clickCount = 2 ∧
    (handleClick (handleClick initialState (okEvent 1000)).1 (okEvent 1127)).1.indicators =
      ["#2: 0.127s"] ∧
    (handleClick (handleClick initialState (okEvent 1000)).1 (okEvent 1127)).1.indicatorTimeout =
      some 2000 := by
  refine ⟨?_, by decide, by decide, by decide, by decide, by decide, by decide⟩
  decide

/-- C7: reset yields `clickCount = 0` and an absent `lastClickTime` from every
prior state, removes any active display (under display consistency), and the
persistence write it issues stores the cleared state. -/
theorem reset_clears_state (sys : Sys) (saveNow : Int) (h : DInv sys.timer) :
    (sysResetTimer sys saveNow .ok).timer.clickCount = 0 ∧
    (sysResetTimer sys saveNow .ok).timer.lastClickTime = none ∧
    (sysResetTimer sys saveNow .ok).timer.indicators = [] ∧
    (sysResetTimer sys saveNow .ok).timer.visualIndicator = none ∧
    (sysResetTimer sys saveNow .ok).timer.indicatorTimeout = none ∧
    (sysResetTimer sys saveNow .ok).store =
      some { lastClickTime := none
             clickCount := some 0
             isEnabled := some sys.timer.isEnabled
             timestamp := some saveNow } := by
  have hbody : resetTimer sys.timer =
      removeVisualIndicator { sys.timer with lastClickTime := none, clickCount := 0 } := rfl
  have hrem : (resetTimer sys.timer).indicators = [] ∧
      (resetTimer sys.timer).visualIndicator = none := by
    rw [hbody]
    unfold DInv at h
    unfold removeVisualIndicator
    cases hv : sys.timer.visualIndicator with
    | none =>
        rw [hv] at h
        simp_all
    | some x =>
        rw [hv] at h
        simp_all
  refine ⟨?_, ?_, hrem.1, hrem.2, ?_, ?_⟩
  · rw [show (sysResetTimer sys saveNow .ok).timer = resetTimer sys.timer from rfl, hbody,
      remove_clickCount]
  · rw [show (sysResetTimer sys saveNow .ok).timer = resetTimer sys.timer from rfl, hbody,
      remove_lastClickTime]
  · rw [show (sysResetTimer sys saveNow .ok).timer = resetTimer sys.timer from rfl, hbody,
      remove_indicatorTimeout]
  · simp only [sysResetTimer, savePersistedData, hbody, remove_lastClickTime,
      remove_clickCount, remove_isEnabled]

/-- Witness for `reset_clears_state`: a state with three recorded clicks and
a visible indicator. -/
theorem reset_clears_state_witness :
    (sysResetTimer { timer := shownState, store := none } 2500 .ok).timer.clickCount = 0 ∧
    (sysResetTimer { timer := shownState, store := none } 2500 .ok).timer.lastClickTime = none ∧
    (sysResetTimer { timer := shownState, store := none } 2500 .ok).timer.indicators = [] ∧
    (sysResetTimer { timer := shownState, store := none } 2500 .ok).timer.visualIndicator
      = none ∧
    (sysResetTimer { timer := shownState, store := none } 2500 .ok).timer.indicatorTimeout
      = none ∧
    (sysResetTimer { timer := shownState, store := none } 2500 .ok).store =
      some { lastClickTime := none
             clickCount := some 0
             isEnabled := some shownState.isEnabled
             timestamp := some 2500 } :=
  reset_clears_state { timer := shownState, store := none } 2500
    (by decide : shownState.indicators = shownState.visualIndicator.toList)

/-- C10: frame conditions of the control commands: `enable` and `disable`
modify only `isEnabled` among the session-state fields, `resetTimer` leaves
`isEnabled` unchanged, and `getStats` is a pure read of the session-state
triple. -/
theorem control_command_frames (s : TimerState) :
    (enable s).clickCount = s.clickCount ∧
    (enable s).lastClickTime = s.lastClickTime ∧
    (enable s).isEnabled = true ∧
    (disable s).clickCount = s.clickCount ∧
    (disable s).lastClickTime = s.lastClickTime ∧
    (disable s).isEnabled = false ∧
    (resetTimer s).isEnabled = s.isEnabled ∧
    getStats s = { clickCount := s.clickCount
                   lastClickTime := s.lastClickTime
                   isEnabled := s.isEnabled } := by
  refine ⟨rfl, rfl, rfl, ?_, ?_, ?_, ?_, rfl⟩
  · rw [show disable s = removeVisualIndicator { s with isEnabled := false } from rfl,
      remove_clickCount]
  · rw [show disable s = removeVisualIndicator { s with isEnabled := false } from rfl,
      remove_lastClickTime]
  · rw [show disable s = removeVisualIndicator { s with isEnabled := false } from rfl,
      remove_isEnabled]
  · rw [show resetTimer s =
        removeVisualIndicator { s with lastClickTime := none, clickCount := 0 } from rfl,
      remove_isEnabled]

/-- Counting from a state with a recorded click: every accepted click
increments, so a run of accepted clicks adds its length to the count. -/
theorem applyClicks_count_from_some (l : List ClickEvent) :
    ∀ (s : TimerState) (t : Int), s.isEnabled = true → s.lastClickTime = some t →
      (∀ e ∈ l, isValidPageClick e = true) →
      (applyClicks s l).clickCount = s.clickCount + l.length := by
  induction l with
  | nil => intro s t _ _ _; rfl
  | cons e es ih =>
      intro s t h1 h2 h3
      obtain ⟨hc, hl, hen, _⟩ :=
        handleClick_accept_some s e t h2 h1 (h3 e (List.mem_cons_self e es))
      have step : applyClicks s (e :: es) = applyClicks (handleClick s e).1 es := rfl
      rw [step, ih (handleClick s e).1 e.time hen hl
        (fun x hx => h3 x (List.mem_cons_of_mem e hx)), hc]
      simp [List.length_cons]
      omega

/-- C2: from any state with no recorded `lastClickTime` (fresh, post-reset,
or a startup load that adopted a persisted `clickCount` while clearing the
timestamp), a nonempty run of accepted clicks leaves `clickCount` equal to
the number of accepted clicks; when the count starts at 0 this also holds
for the empty run. The first accepted click takes the first-click branch
and sets the count to 1 regardless of the adopted value. -/
theorem clickCount_counts_accepted_clicks (s : TimerState) (l : List ClickEvent)
    (h0 : s.lastClickTime = none) (h1 : s.isEnabled = true)
    (hv : ∀ e ∈ l, isValidPageClick e = true)
    (h2 : s.clickCount = 0 ∨ l ≠ []) :
    (applyClicks s l).clickCount = l.length := by
  cases l with
  | nil =>
      rcases h2 with h | h
      · exact h
      · exact absurd rfl h
  | cons e es =>
      obtain ⟨hc, hl, hen, _⟩ :=
        handleClick_accept_none s e h0 h1 (hv e (List.mem_cons_self e es))
      have step : applyClicks s (e :: es) = applyClicks (handleClick s e).1 es := rfl
      rw [step, applyClicks_count_from_some es (handleClick s e).1 e.time hen hl
        (fun x hx => hv x (List.mem_cons_of_mem e hx)), hc]
      simp [List.length_cons]
      omega

/-- Witness for `clickCount_counts_accepted_clicks`: a startup load adopted
`clickCount = 7` while clearing `lastClickTime`; three accepted clicks then
leave the count at 3. -/
theorem clickCount_counts_accepted_clicks_witness :
    (applyClicks { initialState with clickCount := 7 }
        [okEvent 100, okEvent 250, okEvent 300]).clickCount =
      [okEvent 100, okEvent 250, okEvent 300].length :=
  clickCount_counts_accepted_clicks { initialState with clickCount := 7 }
    [okEvent 100, okEvent 250, okEvent 300] rfl rfl (by decide)
    (Or.inr (by decide))

/-- C4: a click event produces no state change and no display event exactly
when the tracker is disabled, the target is outside the document body, the
pointer is within 20 units of the right or bottom viewport edge, or the
target is (inside) the display indicator. The hypothesis records the DOM
fact that a node contained in `document.body` has an `html` ancestor, which
makes the code's separate `closest('html')` check redundant. The edge and
indicator disjuncts do not mention `isEnabled`: those rejections apply
regardless of it. -/
theorem click_rejection_iff (s : TimerState) (e : ClickEvent)
    (hdom : e.inBody = true → e.inHtml = true) :
    ((handleClick s e).1 = s ∧ (handleClick s e).2 = none) ↔
      (s.isEnabled = false ∨ e.inBody = false ∨ e.clientX > e.innerWidth - 20 ∨
       e.clientY > e.innerHeight - 20 ∨ e.onIndicator = true) := by
  constructor
  · rintro ⟨-, hem⟩
    by_contra hc
    push_neg at hc
    obtain ⟨hen, hib, hx, hy, hoi⟩ := hc
    have hen' : s.isEnabled = true := by
      cases h : s.isEnabled
      · exact absurd h hen
      · rfl
    have hib' : e.inBody = true := by
      cases h : e.inBody
      · exact absurd h hib
      · rfl
    have hoi' : e.onIndicator = false := by
      cases h : e.onIndicator
      · rfl
      · exact absurd h hoi
    have hv : isValidPageClick e = true :=
      (isValidPageClick_iff e).mpr ⟨hib', hoi', not_lt.mpr hx, not_lt.mpr hy, hdom hib'⟩
    exact handleClick_accept_emits s e hen' hv hem
  · intro h
    have hrej : s.isEnabled = false ∨ isValidPageClick e = false := by
      rcases h with h | h | h | h | h
      · exact Or.inl h
      all_goals
        refine Or.inr ?_
        cases hvb : isValidPageClick e
        · rfl
        · obtain ⟨c1, c2, c3, c4, c5⟩ := (isValidPageClick_iff e).mp hvb
          simp_all
    rw [handleClick_rejected s e hrej]
    exact ⟨rfl, rfl⟩

/-- Witness for `click_rejection_iff`: a click 10 units from the right
viewport edge is rejected even though the tracker is enabled. -/
theorem click_rejection_iff_witness :
    (handleClick initialState
        { time := 5, inBody := true, clientX := 790, clientY := 100,
          innerWidth := 800, innerHeight := 600, inHtml := true,
          onIndicator := false }).1 = initialState ∧
    (handleClick initialState
        { time := 5, inBody := true, clientX := 790, clientY := 100,
          innerWidth := 800, innerHeight := 600, inHtml := true,
          onIndicator := false }).2 = none :=
  (click_rejection_iff initialState
      { time := 5, inBody := true, clientX := 790, clientY := 100,
        innerWidth := 800, innerHeight := 600, inHtml := true,
        onIndicator := false } (fun _ => rfl)).mpr
    (Or.inr (Or.inr (Or.inl (by decide))))

/-- C5: every operation — click handling (accepted or rejected), reset,
enable, disable, and a startup load from a persisted record that itself
satisfies the invariant — preserves the invariant that a zero `clickCount`
implies an absent `lastClickTime`. -/
theorem operations_preserve_inv (s : TimerState) (e : ClickEvent) (now : Int)
    (r : PersistRecord) (hs : Inv s) (hr : recordInv r) :
    Inv (handleClick s e).1 ∧ Inv (resetTimer s) ∧ Inv (enable s) ∧ Inv (disable s) ∧
    Inv (loadPersistedData s now (.ok (some r))) := by
  refine ⟨?_, ?_, ?_, ?_, ?_⟩
  · by_cases hen : s.isEnabled = true
    · by_cases hv : isValidPageClick e = true
      · cases hl : s.lastClickTime with
        | some t =>
            obtain ⟨hc, -, -, -⟩ := handleClick_accept_some s e t hl hen hv
            intro h0
            rw [hc] at h0
            exact absurd h0 (Nat.succ_ne_zero _)
        | none =>
            obtain ⟨hc, -, -, -⟩ := handleClick_accept_none s e hl hen hv
            intro h0
            rw [hc] at h0
            exact absurd h0 one_ne_zero
      · rw [handleClick_rejected s e (Or.inr (Bool.eq_false_iff.mpr hv))]
        exact hs
    · rw [handleClick_rejected s e (Or.inl (Bool.eq_false_iff.mpr
        (fun h => hen h)))]
      exact hs
  · intro _
    rw [show resetTimer s =
        removeVisualIndicator { s with lastClickTime := none, clickCount := 0 } from rfl,
      remove_lastClickTime]
  · intro h0
    exact hs h0
  · intro h0
    have h0' : s.clickCount = 0 := by
      rw [show disable s = removeVisualIndicator { s with isEnabled := false } from rfl,
        remove_clickCount] at h0
      exact h0
    rw [show disable s = removeVisualIndicator { s with isEnabled := false } from rfl,
      remove_lastClickTime]
    exact hs h0'
  · intro h0
    have hcc : (loadPersistedData s now (.ok (some r))).clickCount = r.clickCount.getD 0 := rfl
    rw [hcc] at h0
    have hrl : r.lastClickTime = none := hr h0
    simp [loadPersistedData, hrl, jsTruthyTime]

/-- Witness for `operations_preserve_inv`: the fresh state, an in-viewport
click, and an empty-but-for-defaults persisted record. -/
theorem operations_preserve_inv_witness :
    Inv (handleClick initialState (okEvent 5)).1 ∧ Inv (resetTimer initialState) ∧
    Inv (enable initialState) ∧ Inv (disable initialState) ∧
    Inv (loadPersistedData initialState 100
      (.ok (some { lastClickTime := none, clickCount := some 0,
                   isEnabled := some true, timestamp := some 3 }))) :=
  operations_preserve_inv initialState (okEvent 5) 100
    { lastClickTime := none, clickCount := some 0, isEnabled := some true,
      timestamp := some 3 }
    (fun _ => rfl) (fun _ => rfl)

/-- Under display consistency, `removeVisualIndicator` leaves no indicator
attached and no tracked indicator. -/
theorem remove_dinv (s : TimerState) (h : DInv s) :
    (removeVisualIndicator s).indicators = [] ∧
    (removeVisualIndicator s).visualIndicator = none := by
  unfold DInv at h
  cases hv : s.visualIndicator with
  | none =>
      rw [hv] at h
      simp only [Option.toList] at h
      simp [removeVisualIndicator, hv, h]
  | some x =>
      rw [hv] at h
      simp only [Option.toList] at h
      simp [removeVisualIndicator, hv, h]

/-- Under display consistency, `showVisualFeedback` leaves exactly the new
indicator attached and tracked. -/
theorem show_display (s : TimerState) (m : String) (c : Nat) (h : DInv s) :
    (showVisualFeedback s m c).indicators = [indicatorText m c] ∧
    (showVisualFeedback s m c).visualIndicator = some (indicatorText m c) := by
  obtain ⟨h1, _⟩ := remove_dinv s h
  refine ⟨?_, rfl⟩
  show (removeVisualIndicator s).indicators ++ [indicatorText m c] = [indicatorText m c]
  rw [h1]
  rfl

/-- `showVisualFeedback` preserves display consistency. -/
theorem show_dinv (s : TimerState) (m : String) (c : Nat) (h : DInv s) :
    DInv (showVisualFeedback s m c) := by
  obtain ⟨h1, h2⟩ := show_display s m c h
  unfold DInv
  rw [h1, h2]
  rfl

/-- `handleClick` preserves display consistency. -/
theorem handleClick_dinv (s : TimerState) (e : ClickEvent) (h : DInv s) :
    DInv (handleClick s e).1 := by
  by_cases hen : s.isEnabled = true
  · by_cases hv : isValidPageClick e = true
    · cases hl : s.lastClickTime with
      | some t =>
          have hfst : (handleClick s e).1 =
              { showVisualFeedback { s with clickCount := s.clickCount + 1 }
                  (toFixed3ms (e.time - t) ++ "s") (s.clickCount + 1) with
                  lastClickTime := some e.time } := by
            simp [handleClick, hen, hv, hl]
          rw [hfst]
          exact show_dinv { s with clickCount := s.clickCount + 1 } _ _ h
      | none =>
          have hfst : (handleClick s e).1 =
              { showVisualFeedback { s with clickCount := 1 } "First click recorded" 1 with
                  lastClickTime := some e.time } := by
            simp [handleClick, hen, hv, hl]
          rw [hfst]
          exact show_dinv { s with clickCount := 1 } _ _ h
    · rw [handleClick_rejected s e (Or.inr (Bool.eq_false_iff.mpr hv))]
      exact h
  · rw [handleClick_rejected s e (Or.inl (Bool.eq_false_iff.mpr (fun hh => hen hh)))]
    exact h

/-- C9: each emitted display event first removes the visible indicator and
its pending timer, then shows the new indicator with a fresh 2000 ms
auto-removal timer, so at most one indicator exists at any time: under
display consistency `showVisualFeedback` yields exactly the singleton new
indicator, and consistency (hence the at-most-one bound) is preserved by
`showVisualFeedback`, `handleClick`, `resetTimer` and `disable`. -/
theorem display_event_lifecycle (s : TimerState) (m : String) (c : Nat)
    (e : ClickEvent) (h : DInv s) :
    (showVisualFeedback s m c).indicators = [indicatorText m c] ∧
    (showVisualFeedback s m c).visualIndicator = some (indicatorText m c) ∧
    (showVisualFeedback s m c).indicatorTimeout = some 2000 ∧
    DInv (showVisualFeedback s m c) ∧
    DInv (handleClick s e).1 ∧ DInv (resetTimer s) ∧ DInv (disable s) := by
  obtain ⟨h1, h2⟩ := show_display s m c h
  refine ⟨h1, h2, show_indicatorTimeout s m c, show_dinv s m c h,
    handleClick_dinv s e h, ?_, ?_⟩
  · obtain ⟨r1, r2⟩ :=
      remove_dinv { s with lastClickTime := none, clickCount := 0 } h
    unfold DInv
    rw [show resetTimer s =
        removeVisualIndicator { s with lastClickTime := none, clickCount := 0 } from rfl,
      r1, r2]
    rfl
  · obtain ⟨r1, r2⟩ := remove_dinv { s with isEnabled := false } h
    unfold DInv
    rw [show disable s = removeVisualIndicator { s with isEnabled := false } from rfl,
      r1, r2]
    rfl

/-- Witness for `display_event_lifecycle`: a state already showing an
indicator with its timer pending; a new display event replaces it. -/
theorem display_event_lifecycle_witness :
    (showVisualFeedback shownState "0.250s" 4).indicators = [indicatorText "0.250s" 4] ∧
    (showVisualFeedback shownState "0.250s" 4).visualIndicator =
      some (indicatorText "0.250s" 4) ∧
    (showVisualFeedback shownState "0.250s" 4).indicatorTimeout = some 2000 ∧
    DInv (showVisualFeedback shownState "0.250s" 4) ∧
    DInv (handleClick shownState (okEvent 300)).1 ∧ DInv (resetTimer shownState) ∧
    DInv (disable shownState) :=
  display_event_lifecycle shownState "0.250s" 4 (okEvent 300)
    (by decide : shownState.indicators = shownState.visualIndicator.toList)

/-- C8: the in-memory state an operation leaves behind, and the display
event it emits, do not depend on the storage outcome (success, API
unavailable, or write error), and the startup load leaves the in-memory
state untouched when the API is unavailable, the read throws, or no record
exists. -/
theorem storage_outcome_irrelevant (sys : Sys) (e : ClickEvent) (saveNow now : Int)
    (o : StorageOutcome) :
    (sysHandleClick sys e saveNow o).1.timer = (handleClick sys.timer e).1 ∧
    (sysHandleClick sys e saveNow o).2 = (handleClick sys.timer e).2 ∧
    (sysResetTimer sys saveNow o).timer = resetTimer sys.timer ∧
    (sysEnable sys saveNow o).timer = enable sys.timer ∧
    (sysDisable sys saveNow o).timer = disable sys.timer ∧
    loadPersistedData sys.timer now .unavailable = sys.timer ∧
    loadPersistedData sys.timer now .error = sys.timer ∧
    loadPersistedData sys.timer now (.ok none) = sys.timer := by
  refine ⟨?_, ?_, rfl, rfl, rfl, rfl, rfl, rfl⟩
  · unfold sysHandleClick
    cases hr : (handleClick sys.timer e).2 <;> simp [hr]
  · unfold sysHandleClick
    cases hr : (handleClick sys.timer e).2 <;> simp [hr]

/-- C1 (amended): on startup load of a persisted record, `lastClickTime` is
adopted exactly when the persisted value is present and nonzero, the save
is recent (`now - savedAt < 5000`), and the click age is sane
(`0 < now - lastClickTime < 300000`); in every other case it is cleared.
`clickCount` and `isEnabled` are adopted with defaults 0 and `true`. The
nonzero condition is forced by the code's JavaScript truthiness test on
`data.lastClickTime`. -/
theorem load_reconciliation (s : TimerState) (r : PersistRecord) (now savedAt : Int)
    (hts : r.timestamp = some savedAt) :
    (loadPersistedData s now (.ok (some r))).lastClickTime =
      (match r.lastClickTime with
       | some t =>
           if t ≠ 0 ∧ now - savedAt < 5000 ∧ 0 < now - t ∧ now - t < 300000 then some t
           else none
       | none => none) ∧
    (loadPersistedData s now (.ok (some r))).clickCount = r.clickCount.getD 0 ∧
    (loadPersistedData s now (.ok (some r))).isEnabled = r.isEnabled.getD true := by
  refine ⟨?_, rfl, rfl⟩
  cases hl : r.lastClickTime with
  | none => simp [loadPersistedData, hl, jsTruthyTime]
  | some t =>
      by_cases h0 : t = 0
      · subst h0
        simp [loadPersistedData, hl, jsTruthyTime]
      · by_cases h1 : now - savedAt < 5000
        · by_cases h2 : 0 < now - t
          · by_cases h3 : now - t < 300000
            · simp [loadPersistedData, hl, hts, jsTruthyTime, bne_iff_ne, h0, h1, h2, h3]
            · simp [loadPersistedData, hl, hts, jsTruthyTime, bne_iff_ne, h0, h1, h2, h3]
          · simp [loadPersistedData, hl, hts, jsTruthyTime, bne_iff_ne, h0, h1, h2]
        · simp [loadPersistedData, hl, hts, jsTruthyTime, bne_iff_ne, h0, h1]

/-- Witness for `load_reconciliation`: a record saved 2 ms ago with a click
20 ms old is adopted in full; `clickCount` and a persisted `false` for
`isEnabled` are taken verbatim. -/
theorem load_reconciliation_witness :
    (loadPersistedData initialState 100
      (.ok (some { lastClickTime := some 80, clickCount := some 2,
                   isEnabled := some false, timestamp := some 98 }))).lastClickTime =
      some 80 ∧
    (loadPersistedData initialState 100
      (.ok (some { lastClickTime := some 80, clickCount := some 2,
                   isEnabled := some false, timestamp := some 98 }))).clickCount = 2 ∧
    (loadPersistedData initialState 100
      (.ok (some { lastClickTime := some 80, clickCount := some 2,
                   isEnabled := some false, timestamp := some 98 }))).isEnabled = false := by
  have h := load_reconciliation initialState
    { lastClickTime := some 80, clickCount := some 2, isEnabled := some false,
      timestamp := some 98 } 100 98 rfl
  exact ⟨h.1.trans (by decide), h.2.1.trans (by decide), h.2.2.trans (by decide)⟩

/-- Counterexample to C1 as stated: a record whose persisted `lastClickTime`
is present (with value 0) and satisfies the claimed adoption conditions
(recent save: `100 - 50 < 5000`; sane age: `0 < 100 - 0 < 300000`), yet the
code clears `lastClickTime` instead of adopting it, because JavaScript
treats the number 0 as falsy in `if (data.lastClickTime && ...)`. -/
theorem load_reconciliation_claim_cex :
    ((loadPersistedData initialState 100
      (.ok (some { lastClickTime := some 0, clickCount := some 3,
                   isEnabled := some true, timestamp := some 50 }))).lastClickTime
      = none) ∧
    (some (0 : Int)).isSome = true ∧ ((100 : Int) - 50 < 5000) ∧
    ((0 : Int) < 100 - 0) ∧ ((100 : Int) - 0 < 300000) := by decide

end ClickTimer
